import Mathlib

/-!
# Tile data lifecycle (`src/mbgl/tile/tile_data.hpp`)

A shallow embedding of the abstract class `mbgl::TileData`: the seven-valued
`State` enumeration, the data members of the base class, and the member
functions whose bodies are given in the header (`isRenderable`, `getState`,
`parsePending`, both `redoPlacement` overloads).  Member functions that the
header only declares (`cancel`, `queryRenderedFeatures`) are modelled from the
written specification and are marked as such.
-/

namespace mbgl

/-! ## Data model -/

/-- The enumeration `TileData::State` (tile_data.hpp, lines 57-65).  The fifth
enumerator is spelled `partial` in the source; that word is reserved in Lean,
hence the trailing underscore. -/
inductive State where
  | initial
  | invalid
  | loading
  | loaded
  | partial_
  | parsed
  | obsolete
  deriving DecidableEq, Repr

/-- The types that tile_data.hpp only includes or forward-declares
(`OverscaledTileID`, `Timestamp`, `DebugBucket`, `PlacementConfig`,
`StyleLayer`, `Bucket`, `GeometryCoordinates`, `TransformState`, `Feature`),
taken as parameters, together with the type of the data members that a
concrete subclass adds to the abstract base (`Derived`). -/
structure Externals where
  OverscaledTileID : Type
  Timestamp : Type
  DebugBucket : Type
  PlacementConfig : Type
  StyleLayer : Type
  Bucket : Type
  GeometryCoordinates : Type
  TransformState : Type
  Feature : Type
  Derived : Type

/-- The data members of `class TileData` (lines 103-111): `id`, `modified`,
`expires`, `debugBucket` (a `unique_ptr`, possibly null) and the protected
`state`.  The class is abstract (`cancel`, `getBucket`, `hasData` are pure
virtual), so every object also carries the members of its concrete subclass,
kept in `derived`. -/
structure TileData (E : Externals) where
  id : E.OverscaledTileID
  modified : Option E.Timestamp
  expires : Option E.Timestamp
  debugBucket : Option E.DebugBucket
  state : State
  derived : E.Derived

/-- A `std::exception_ptr`: null, or an exception (represented by its text). -/
abbrev ExceptionPtr := Option String

/-- What a call of a member function leaves behind: its return value, the tile
object after the call, and the state `W` of whatever the completion callbacks
act on.  A callback `std::function<void (A)>` is a function `A → W → W`;
invoking it is applying it to the current `W`. -/
structure Call (E : Externals) (W R : Type) where
  ret : R
  tile : TileData E
  world : W

/-! ## Member functions defined in the header -/

/-- Body of `TileData::isRenderable` (lines 90-92):
`return state == State::partial || state == State::parsed;` -/
def TileData.isRenderable {E : Externals} (t : TileData E) : Bool :=
  t.state == State.partial_ || t.state == State.parsed

/-- Body of `TileData::getState` (lines 97-99): `return state;` -/
def TileData.getState {E : Externals} (t : TileData E) : State :=
  t.state

/-- Body of the base `TileData::parsePending` (line 77): `{ return true; }`.
The callback argument is not used. -/
def TileData.parsePending {E : Externals} {W : Type} (t : TileData E)
    (_callback : ExceptionPtr → W → W) (w : W) : Call E W Bool :=
  { ret := true, tile := t, world := w }

/-- Body of the base `TileData::redoPlacement(PlacementConfig, callback)`
(line 78): `{}`. -/
def TileData.redoPlacement {E : Externals} {W : Type} (t : TileData E)
    (_config : E.PlacementConfig) (_callback : W → W) (w : W) : Call E W Unit :=
  { ret := (), tile := t, world := w }

/-- Body of the base `TileData::redoPlacement(callback)` (line 79): `{}`. -/
def TileData.redoPlacement' {E : Externals} {W : Type} (t : TileData E)
    (_callback : W → W) (w : W) : Call E W Unit :=
  { ret := (), tile := t, world := w }

/-! ## Callbacks used to observe invocations -/

/-- A callback that counts its invocations. -/
def tick {A : Type} : A → Nat → Nat :=
  fun _ n => n + 1

/-- A callback without argument that counts its invocations. -/
def tick0 : Nat → Nat :=
  fun n => n + 1

/-- A callback that records every argument it is invoked with. -/
def record : ExceptionPtr → List ExceptionPtr → List ExceptionPtr :=
  fun e log => log ++ [e]

/-! ## Member functions declared in the header, defined elsewhere -/

/-- The accumulator of `queryRenderedFeatures`,
`std::unordered_map<std::string, std::vector<Feature>>`, as an association
list from source-layer name to the features matched so far. -/
abbrev FeatureMap (E : Externals) := List (String × List E.Feature)

/-- The collaborators a tile consults: the pure virtual `getBucket` of line 75
(supplied by the concrete subclass), the style layers of the style
configuration with their identifiers, the hit test of a bucket against a query
geometry under a transform (each match comes with the name of its source
layer), and what the concrete subclass does to its own members when pending
work is abandoned. -/
structure Collaborators (E : Externals) where
  layers : List E.StyleLayer
  layerID : E.StyleLayer → String
  getBucket : TileData E → E.StyleLayer → Option E.Bucket
  queryBucket : E.Bucket → E.GeometryCoordinates → E.TransformState → List (String × E.Feature)
  abandon : E.Derived → E.Derived

/-- Modelled from the spec: `cancel()` is pure virtual in tile_data.hpp
(`virtual void cancel() = 0;`, line 73) and its bodies are in the concrete
subclasses, which are not part of the sources at hand.  Spec 4.2: it
"transitions the instance to `obsolete` unconditionally and signals any
in-flight asynchronous load/parse work to abandon itself". -/
def TileData.cancel {E : Externals} (c : Collaborators E) (t : TileData E) : TileData E :=
  { t with state := State.obsolete, derived := c.abandon t.derived }

/-- The statement `result[sourceLayer].push_back(feature)` on the accumulator. -/
def FeatureMap.push {E : Externals} :
    FeatureMap E → String → E.Feature → FeatureMap E
  | [], sourceLayer, feature => [(sourceLayer, [feature])]
  | (k, fs) :: rest, sourceLayer, feature =>
    if k = sourceLayer then (k, fs ++ [feature]) :: rest
    else (k, fs) :: FeatureMap.push rest sourceLayer feature

/-- Whether a layer identifier passes the optional allow-list `layerIDs`. -/
def layerAllowed (layerIDs : Option (List String)) (layerID : String) : Bool :=
  match layerIDs with
  | none => true
  | some ids => ids.contains layerID

/-- Modelled from the spec: `TileData::queryRenderedFeatures` is declared in
tile_data.hpp (lines 81-85) and its body is in tile_data.cpp, which is not part
of the sources at hand.  Spec 4.5: "for each style layer whose bucket is
present and (if an allow-list is given) whose identifier is in the allow-list,
test the query geometry against that bucket's rendered geometry under the given
transform, and append matches into the accumulator keyed by the feature's
originating source layer"; "no side effects beyond appending to the
caller-supplied accumulator; does not mutate tile state".  The value returned
is the tile after the call and the accumulator after the call. -/
def TileData.queryRenderedFeatures {E : Externals} (c : Collaborators E) (t : TileData E)
    (result : FeatureMap E) (queryGeometry : E.GeometryCoordinates)
    (transformState : E.TransformState) (layerIDs : Option (List String)) :
    TileData E × FeatureMap E :=
  (t, c.layers.foldl (fun acc layer =>
    match c.getBucket t layer with
    | none => acc
    | some bucket =>
      if layerAllowed layerIDs (c.layerID layer) then
        (c.queryBucket bucket queryGeometry transformState).foldl
          (fun a m => FeatureMap.push a m.1 m.2) acc
      else acc) result)

/-! ## The interface as a transition system -/

/-- One call of an operation of the interface, with its arguments. -/
inductive Op (E : Externals) (W : Type) where
  | parsePending (callback : ExceptionPtr → W → W)
  | redoPlacement (config : E.PlacementConfig) (callback : W → W)
  | redoPlacement' (callback : W → W)
  | queryRenderedFeatures (result : FeatureMap E) (queryGeometry : E.GeometryCoordinates)
      (transformState : E.TransformState) (layerIDs : Option (List String))
  | isRenderable
  | getState
  | cancel

/-- The tile and the callbacks' world after one call.  `isRenderable` and
`getState` are `const` member functions: they return a value and leave the
object as it is. -/
def Op.apply {E : Externals} {W : Type} (c : Collaborators E) :
    Op E W → TileData E × W → TileData E × W
  | Op.parsePending callback, (t, w) =>
    ((t.parsePending callback w).tile, (t.parsePending callback w).world)
  | Op.redoPlacement config callback, (t, w) =>
    ((t.redoPlacement config callback w).tile, (t.redoPlacement config callback w).world)
  | Op.redoPlacement' callback, (t, w) =>
    ((t.redoPlacement' callback w).tile, (t.redoPlacement' callback w).world)
  | Op.queryRenderedFeatures result queryGeometry transformState layerIDs, (t, w) =>
    ((t.queryRenderedFeatures c result queryGeometry transformState layerIDs).1, w)
  | Op.isRenderable, (t, w) => (t, w)
  | Op.getState, (t, w) => (t, w)
  | Op.cancel, (t, w) => (t.cancel c, w)

/-- The tile and the world after a sequence of calls, first call first. -/
def Op.run {E : Externals} {W : Type} (c : Collaborators E)
    (ops : List (Op E W)) (tw : TileData E × W) : TileData E × W :=
  ops.foldl (fun acc op => Op.apply c op acc) tw

/-! ## A concrete instance, for evaluation -/

/-- Concrete choices for the external types: tile coordinates, timestamps,
placement parameters and buckets are numbers, layers, features and debug
labels are strings, a geometry is a list of points. -/
@[reducible] def sampleExternals : Externals where
  OverscaledTileID := Nat
  Timestamp := Nat
  DebugBucket := String
  PlacementConfig := Nat
  StyleLayer := String
  Bucket := Nat
  GeometryCoordinates := List (Int × Int)
  TransformState := Unit
  Feature := String
  Derived := List Nat

/-- A tile of the concrete instance in the given state; its subclass members
are two pending requests. -/
def sampleTile (s : State) : TileData sampleExternals :=
  { id := 7, modified := some 100, expires := none, debugBucket := some "7/1/2",
    state := s, derived := [1, 2] }

/-- Collaborators of the concrete instance for a tile without any bucket:
two style layers, `getBucket` answers null for each. -/
def sampleEmpty : Collaborators sampleExternals where
  layers := ["water", "roads"]
  layerID := fun l => l
  getBucket := fun _ _ => none
  queryBucket := fun b _ _ => [("src", toString b)]
  abandon := fun _ => []

/-- Collaborators of the concrete instance for a tile with a bucket for the
layer `water` only. -/
def sampleWater : Collaborators sampleExternals where
  layers := ["water", "roads"]
  layerID := fun l => l
  getBucket := fun _ l => if l = "water" then some 5 else none
  queryBucket := fun b _ _ => [("src", toString b)]
  abandon := fun _ => []

/-! ## Shared lemmas -/

/-- The state after any single call is the state before it, or `obsolete`. -/
theorem apply_state {E : Externals} {W : Type} (c : Collaborators E) (op : Op E W)
    (t : TileData E) (w : W) :
    (Op.apply c op (t, w)).1.state = t.state ∨ (Op.apply c op (t, w)).1.state = State.obsolete := by
  cases op <;> simp [Op.apply, TileData.parsePending, TileData.redoPlacement,
    TileData.redoPlacement', TileData.queryRenderedFeatures, TileData.cancel]

/-- A layer without bucket contributes nothing to the accumulator. -/
theorem foldl_skip {α β : Type} (f : β → α → β) (l : List α) (b : β)
    (h : ∀ acc a, a ∈ l → f acc a = acc) : l.foldl f b = b := by
  induction l generalizing b with
  | nil => rfl
  | cons a l ih =>
    rw [List.foldl_cons, h b a (List.mem_cons_self a l)]
    exact ih b (fun acc x hx => h acc x (List.mem_cons_of_mem a hx))

/-- With a bucket present for an allowed layer the accumulator does grow: the
match of the `water` bucket is appended under its source layer, and the
allow-list keeps it out when it names another layer only. -/
theorem queryRenderedFeatures_with_bucket :
    ((sampleTile State.partial_).queryRenderedFeatures sampleWater [("src", ["a"])]
      [(0, 0)] () none).2 = [("src", ["a", "5"])] ∧
    ((sampleTile State.partial_).queryRenderedFeatures sampleWater []
      [(0, 0)] () (some ["water"])).2 = [("src", ["5"])] ∧
    ((sampleTile State.partial_).queryRenderedFeatures sampleWater [("src", ["a"])]
      [(0, 0)] () (some ["roads"])).2 = [("src", ["a"])] := by
  decide

/-! ## The claims -/

/-- C1: a tile is renderable exactly when its state is `partial` or `parsed`;
over the seven states the answers are false, false, false, false, true, true,
false, and replacing `id`, `modified`, `expires`, `debugBucket` or the
subclass members does not change the answer. -/
theorem isRenderable_iff_partial_or_parsed {E : Externals} :
    (∀ t : TileData E,
      t.isRenderable = true ↔ (t.state = State.partial_ ∨ t.state = State.parsed)) ∧
    (∀ t : TileData E,
      [State.initial, State.invalid, State.loading, State.loaded, State.partial_,
        State.parsed, State.obsolete].map (fun s => ({ t with state := s } : TileData E).isRenderable)
        = [false, false, false, false, true, true, false]) ∧
    (∀ (t : TileData E) (id : E.OverscaledTileID) (modified expires : Option E.Timestamp)
        (debugBucket : Option E.DebugBucket) (derived : E.Derived),
      ({ t with id := id, modified := modified, expires := expires,
                debugBucket := debugBucket, derived := derived } : TileData E).isRenderable
        = t.isRenderable) := by
  refine ⟨?_, ?_, ?_⟩
  · intro t
    cases h : t.state <;> simp [TileData.isRenderable, h]
  · intro t
    rfl
  · intro t id modified expires debugBucket derived
    rfl

/-- C2: after `cancel()` the state is `obsolete`, whatever the state was
before, and a second `cancel()` leaves the state the first one produced. -/
theorem cancel_obsolete_idempotent {E : Externals} (c : Collaborators E) (t : TileData E) :
    (t.cancel c).state = State.obsolete ∧
    (∀ s : State, (({ t with state := s } : TileData E).cancel c).state = State.obsolete) ∧
    ((t.cancel c).cancel c).state = (t.cancel c).state :=
  ⟨rfl, fun _ => rfl, rfl⟩

/-- C3: from a tile in state `obsolete`, every call of the interface
(`parsePending`, both `redoPlacement`, `queryRenderedFeatures`, `isRenderable`,
`getState`, `cancel`) and every sequence of such calls ends in state
`obsolete`. -/
theorem obsolete_terminal {E : Externals} {W : Type} (c : Collaborators E)
    (t : TileData E) (h : t.state = State.obsolete) :
    (∀ (op : Op E W) (w : W), (Op.apply c op (t, w)).1.state = State.obsolete) ∧
    (∀ (ops : List (Op E W)) (w : W), (Op.run c ops (t, w)).1.state = State.obsolete) := by
  have step : ∀ (op : Op E W) (tw : TileData E × W),
      tw.1.state = State.obsolete → (Op.apply c op tw).1.state = State.obsolete := by
    intro op tw htw
    rcases apply_state c op tw.1 tw.2 with h1 | h1
    · exact h1.trans htw
    · exact h1
  refine ⟨fun op w => step op (t, w) h, ?_⟩
  intro ops
  suffices hrun : ∀ (tw : TileData E × W), tw.1.state = State.obsolete →
      (Op.run c ops tw).1.state = State.obsolete from fun w => hrun (t, w) h
  induction ops with
  | nil => intro tw htw; exact htw
  | cons op ops ih =>
    intro tw htw
    exact ih (Op.apply c op tw) (step op tw htw)

/-- Witness of C3 on a concrete obsolete tile. -/
theorem obsolete_terminal_witness :
    (sampleTile State.obsolete).state = State.obsolete ∧
    (Op.apply sampleWater (Op.parsePending tick) (sampleTile State.obsolete, 0)).1.state
      = State.obsolete ∧
    (Op.run sampleWater [Op.redoPlacement 3 tick0, Op.cancel, Op.getState]
      (sampleTile State.obsolete, 0)).1.state = State.obsolete :=
  ⟨rfl,
   (obsolete_terminal sampleWater (sampleTile State.obsolete) rfl).1 (Op.parsePending tick) 0,
   (obsolete_terminal sampleWater (sampleTile State.obsolete) rfl).2
     [Op.redoPlacement 3 tick0, Op.cancel, Op.getState] 0⟩

/-- C4: from a renderable tile, every call of the interface ends in a state
that is `partial`, `parsed` or `obsolete`, hence in none of `initial`,
`invalid`, `loading`, `loaded`; the same holds after every sequence of calls. -/
theorem renderable_monotonic {E : Externals} {W : Type} (c : Collaborators E)
    (t : TileData E) (h : t.isRenderable = true) :
    (∀ (op : Op E W) (w : W),
      ((Op.apply c op (t, w)).1.isRenderable = true ∨
        (Op.apply c op (t, w)).1.state = State.obsolete) ∧
      (Op.apply c op (t, w)).1.state ≠ State.initial ∧
      (Op.apply c op (t, w)).1.state ≠ State.invalid ∧
      (Op.apply c op (t, w)).1.state ≠ State.loading ∧
      (Op.apply c op (t, w)).1.state ≠ State.loaded) ∧
    (∀ (ops : List (Op E W)) (w : W),
      (Op.run c ops (t, w)).1.isRenderable = true ∨
        (Op.run c ops (t, w)).1.state = State.obsolete) := by
  have step : ∀ (op : Op E W) (tw : TileData E × W),
      (tw.1.isRenderable = true ∨ tw.1.state = State.obsolete) →
      ((Op.apply c op tw).1.isRenderable = true ∨
        (Op.apply c op tw).1.state = State.obsolete) := by
    intro op tw htw
    rcases apply_state c op tw.1 tw.2 with h1 | h1
    · rcases htw with h2 | h2
      · left
        simpa [TileData.isRenderable, h1] using h2
      · right
        exact h1.trans h2
    · right
      exact h1
  have excl : ∀ u : TileData E, (u.isRenderable = true ∨ u.state = State.obsolete) →
      u.state ≠ State.initial ∧ u.state ≠ State.invalid ∧
      u.state ≠ State.loading ∧ u.state ≠ State.loaded := by
    intro u hu
    cases hs : u.state <;> simp [TileData.isRenderable, hs] at hu ⊢
  refine ⟨fun op w => ⟨step op (t, w) (Or.inl h), excl _ (step op (t, w) (Or.inl h))⟩, ?_⟩
  intro ops
  suffices hrun : ∀ (tw : TileData E × W),
      (tw.1.isRenderable = true ∨ tw.1.state = State.obsolete) →
      ((Op.run c ops tw).1.isRenderable = true ∨
        (Op.run c ops tw).1.state = State.obsolete) from fun w => hrun (t, w) (Or.inl h)
  induction ops with
  | nil => intro tw htw; exact htw
  | cons op ops ih =>
    intro tw htw
    exact ih (Op.apply c op tw) (step op tw htw)

/-- Witness of C4 on a concrete tile in state `partial`. -/
theorem renderable_monotonic_witness :
    (sampleTile State.partial_).isRenderable = true ∧
    ((Op.apply sampleWater (Op.cancel : Op sampleExternals Nat)
        (sampleTile State.partial_, 0)).1.isRenderable = true ∨
      (Op.apply sampleWater (Op.cancel : Op sampleExternals Nat)
        (sampleTile State.partial_, 0)).1.state = State.obsolete) :=
  ⟨rfl, ((renderable_monotonic sampleWater (sampleTile State.partial_) rfl).1 Op.cancel 0).1⟩

/-- C5: on a tile in state `parsed` the base `parsePending` returns true, a
recording callback ends with no error in its record, the tile after the call
is the tile before it (so its state is still `parsed`, its `id`, `modified`,
`expires`, `debugBucket` are the same and `getBucket` answers the same for
every layer), and a second call gives the same result as the first. -/
theorem parsePending_parsed_noop {E : Externals} {W : Type} (c : Collaborators E)
    (t : TileData E) (h : t.state = State.parsed) (callback : ExceptionPtr → W → W) (w : W) :
    (t.parsePending callback w).ret = true ∧
    (∀ e ∈ (t.parsePending record []).world, e = none) ∧
    (t.parsePending callback w).tile.state = State.parsed ∧
    (t.parsePending callback w).tile = t ∧
    (∀ layer, c.getBucket (t.parsePending callback w).tile layer = c.getBucket t layer) ∧
    (t.parsePending callback w).tile.parsePending callback (t.parsePending callback w).world
      = t.parsePending callback w := by
  refine ⟨rfl, ?_, h, rfl, fun _ => rfl, rfl⟩
  intro e he
  simp [TileData.parsePending] at he

/-- Witness of C5 on a concrete parsed tile with one bucket. -/
theorem parsePending_parsed_noop_witness :
    (sampleTile State.parsed).state = State.parsed ∧
    ((sampleTile State.parsed).parsePending tick 0).ret = true ∧
    ((sampleTile State.parsed).parsePending tick 0).tile = sampleTile State.parsed :=
  ⟨rfl,
   (parsePending_parsed_noop sampleWater (sampleTile State.parsed) rfl tick 0).1,
   (parsePending_parsed_noop sampleWater (sampleTile State.parsed) rfl tick 0).2.2.2.1⟩

/-- C6: the base `parsePending` returns true for every tile and every
callback, in each of the seven states, and the state after the call is the
state before it. -/
theorem parsePending_returns_true {E : Externals} {W : Type} (t : TileData E)
    (callback : ExceptionPtr → W → W) (w : W) :
    (t.parsePending callback w).ret = true ∧
    (∀ s : State, (({ t with state := s } : TileData E).parsePending callback w).ret = true) ∧
    (t.parsePending callback w).tile.state = t.state :=
  ⟨rfl, fun _ => rfl, rfl⟩

/-- C7: both base `redoPlacement` overloads leave the tile as it was: the
state and `id`, `modified`, `expires`, `debugBucket` (and the subclass
members) after the call are those before it, for every tile, placement
configuration and callback. -/
theorem redoPlacement_noop {E : Externals} {W : Type} (t : TileData E)
    (config : E.PlacementConfig) (callback : W → W) (w : W) :
    (t.redoPlacement config callback w).tile.state = t.state ∧
    (t.redoPlacement' callback w).tile.state = t.state ∧
    (t.redoPlacement config callback w).tile = t ∧
    (t.redoPlacement' callback w).tile = t :=
  ⟨rfl, rfl, rfl, rfl⟩

/-- C8 as stated fails: with a callback that counts its invocations, starting
from zero, the count after the base `parsePending` and after either base
`redoPlacement` is zero, not one. -/
theorem callback_exactly_once_counterexample :
    ((sampleTile State.partial_).parsePending tick 0).world = 0 ∧
    ((sampleTile State.partial_).parsePending tick 0).world ≠ 1 ∧
    ((sampleTile State.partial_).redoPlacement 3 tick0 0).world ≠ 1 ∧
    ((sampleTile State.partial_).redoPlacement' tick0 0).world ≠ 1 := by
  decide

/-- C8, amended: the base `parsePending` and both base `redoPlacement`
overloads never invoke the callback they are given: whatever the callback
does, what it acts on is the same after the call as before it, and a callback
that counts its invocations has the same count after the call, for every
state of the tile; the base `parsePending` reports completion through its
return value, which is true for every state of the tile and every callback. -/
theorem base_never_invokes_callback {E : Externals} {W : Type} (t : TileData E)
    (config : E.PlacementConfig) (onParsed : ExceptionPtr → W → W) (onPlaced : W → W) (w : W)
    (n : Nat) :
    (t.parsePending onParsed w).world = w ∧
    (t.redoPlacement config onPlaced w).world = w ∧
    (t.redoPlacement' onPlaced w).world = w ∧
    (t.parsePending onParsed w).ret = true ∧
    (∀ s : State,
      (({ t with state := s } : TileData E).parsePending tick n).world = n ∧
      (({ t with state := s } : TileData E).redoPlacement config tick0 n).world = n ∧
      (({ t with state := s } : TileData E).redoPlacement' tick0 n).world = n ∧
      (({ t with state := s } : TileData E).parsePending onParsed w).ret = true ∧
      (({ t with state := s } : TileData E).parsePending tick n).ret = true) :=
  ⟨rfl, rfl, rfl, rfl, fun _ => ⟨rfl, rfl, rfl, rfl, rfl⟩⟩

/-- C9: on a tile for which `getBucket` answers null for every style layer,
`queryRenderedFeatures` returns the accumulator it was given, for every query
geometry, transform state and optional allow-list, and the tile after the call
is the tile before it. -/
theorem queryRenderedFeatures_no_buckets {E : Externals} (c : Collaborators E) (t : TileData E)
    (h : ∀ layer, c.getBucket t layer = none)
    (result : FeatureMap E) (queryGeometry : E.GeometryCoordinates)
    (transformState : E.TransformState) (layerIDs : Option (List String)) :
    (t.queryRenderedFeatures c result queryGeometry transformState layerIDs).2 = result ∧
    (t.queryRenderedFeatures c result queryGeometry transformState layerIDs).1 = t ∧
    (t.queryRenderedFeatures c result queryGeometry transformState layerIDs).1.state
      = t.state := by
  refine ⟨?_, rfl, rfl⟩
  unfold TileData.queryRenderedFeatures
  apply foldl_skip
  intro acc layer _
  simp [h layer]

/-- Witness of C9 on a concrete tile without buckets and a non-empty
accumulator. -/
theorem queryRenderedFeatures_no_buckets_witness :
    (∀ layer, sampleEmpty.getBucket (sampleTile State.partial_) layer = none) ∧
    ((sampleTile State.partial_).queryRenderedFeatures sampleEmpty [("src", ["a"])]
      [(0, 0), (4, 4)] () (some ["water"])).2 = [("src", ["a"])] :=
  ⟨fun _ => rfl,
   (queryRenderedFeatures_no_buckets sampleEmpty (sampleTile State.partial_) (fun _ => rfl)
     [("src", ["a"])] [(0, 0), (4, 4)] () (some ["water"])).1⟩

end mbgl
